import Mathlib

/-!
# DummyWiFi: control plane of the simulated cfg80211 (FullMAC) driver

A shallow embedding of `src/dummywifi.c`: the shared context
(`struct dummy_wifi_context`), the three admission calls (`nvf_scan`,
`nvf_connect`, `nvf_disconnect`), the three work routines, the announcer
`inform_dummy_bss`, module initialisation (`virtual_wifi_init`) and the state
machine the scan calls and the scan work form together.

Conventions of the embedding.

* Pointers are natural numbers, `NULL` is `0`.
* A `char` is a natural number (a byte value); a `char[n]` is a list of
  exactly `n` bytes.
* Every call into the kernel (semaphore, work queue, cfg80211) and every
  access to one of the three guarded fields is recorded, in program order, in
  the log returned by the function that makes it.
* The outcome of `down_interruptible` is chosen by the environment: the
  Boolean `intr` says that the wait was interrupted by a signal.
* `schedule_work` fails exactly when the work item is already pending
  ("The work is already scheduled", `nvf_connect`); the pending bit of each
  `struct work_struct` is the Boolean kept in the context.
* A store past the end of `connecting_ssid` is logged with its index and leaves
  the declared fields as they are; the run goes on.
* The worker clears the pending bit of a work item when it takes it from the
  queue, before the routine runs.
-/

namespace DummyWiFi

/-! ## Constants -/

/-- The null pointer. -/
def NULL : Nat := 0

/-- The bytes of the string literal `SSID_DUMMY` ("MyAwesomeWiFi"), its
terminating zero included. -/
def SSID_DUMMY : List Nat := ("MyAwesomeWiFi".toList.map Char.toNat) ++ [0]

/-- The value of `sizeof(SSID_DUMMY)`: the literal with its terminator. -/
def sizeof_SSID_DUMMY : Nat := SSID_DUMMY.length

/-- The macro `SSID_DUMMY_SIZE`, that is `sizeof("MyAwesomeWiFi") - 1`. -/
def SSID_DUMMY_SIZE : Nat := sizeof_SSID_DUMMY - 1

/-- Modelled from the spec: the errno constants come from the kernel headers,
which are not among the sources. `EBUSY` is the `Busy` admission status (value
of errno-base.h). -/
def EBUSY : Int := 16

/-- Modelled from the spec: the errno constants come from the kernel headers,
which are not among the sources. `ERESTARTSYS` is the `Cancelled` admission
status, distinguishable from `Busy` (value of linux/errno.h). -/
def ERESTARTSYS : Int := 512

/-- Modelled from the spec: kernel header constant, not among the sources; the
value `down_interruptible` returns when a signal interrupts the wait. -/
def EINTR : Int := 4

/-- Modelled from the spec: `enum nl80211_timeout_reason` of the kernel
headers, not among the sources; `NL80211_TIMEOUT_SCAN` is the scan-phase
timeout reason. -/
inductive nl80211_timeout_reason where
  | NL80211_TIMEOUT_UNSPECIFIED
  | NL80211_TIMEOUT_SCAN
  | NL80211_TIMEOUT_AUTH
  | NL80211_TIMEOUT_ASSOC
  deriving DecidableEq, Repr

/-- Modelled from the spec: kernel header constant, not among the sources; the
status code "success" of a connect result. -/
def WLAN_STATUS_SUCCESS : Nat := 0

/-- Modelled from the spec: kernel header constant, not among the sources; the
element id of the SSID information element. -/
def WLAN_EID_SSID : Nat := 0

/-- Modelled from the spec: kernel header constant, not among the sources; the
extended-service-set capability flag. -/
def WLAN_CAPABILITY_ESS : Nat := 1

/-- Modelled from the spec: kernel header constant, not among the sources; the
index of the 2.4 GHz band. -/
def NL80211_BAND_2GHZ : Nat := 0

/-- Modelled from the spec: kernel header constant, not among the sources. -/
def NL80211_BSS_CHAN_WIDTH_20 : Nat := 0

/-- Modelled from the spec: kernel header constant, not among the sources. -/
def CFG80211_BSS_FTYPE_UNKNOWN : Nat := 0

/-! ## Data model -/

/-- A C array `char[n]`: exactly `n` bytes. -/
abbrev char_array (n : Nat) : Type := { a : List Nat // a.length = n }

/-- The fields of `struct ieee80211_channel` the driver fills in. -/
structure ieee80211_channel where
  band : Nat
  hw_value : Nat
  center_freq : Nat
  deriving DecidableEq, Repr

/-- The table `nvf_supported_channels_2ghz`: one channel, number 6. -/
def nvf_supported_channels_2ghz : List ieee80211_channel :=
  [{ band := NL80211_BAND_2GHZ, hw_value := 6, center_freq := 2437 }]

/-- The fields of `struct cfg80211_inform_bss` set by `inform_dummy_bss`; `chan`
is the channel pointed to, `none` when the table has no such entry. -/
structure cfg80211_inform_bss where
  chan : Option ieee80211_channel
  scan_width : Nat
  signal : Int
  deriving DecidableEq, Repr

/-- The three fields of the context guarded by the semaphore. -/
inductive Field where
  | connecting_ssid
  | disconnect_reason_code
  | scan_request
  deriving DecidableEq, Repr

/-- The three work items of the context. -/
inductive Work where
  | ws_connect
  | ws_disconnect
  | ws_scan
  deriving DecidableEq, Repr

/-- What a function of the driver does to the outside, in program order. -/
inductive Event where
  /-- The call `down_interruptible(&navi->sem)` returned `ret` (zero: acquired). -/
  | down_interruptible (ret : Int)
  /-- The call `up(&navi->sem)`. -/
  | up
  /-- A read of a guarded field. -/
  | load (f : Field)
  /-- A write of a guarded field. -/
  | store (f : Field)
  /-- A byte stored at `connecting_ssid[index]` with `index` outside the array
  as declared. -/
  | out_of_bounds (index : Nat)
  /-- The call `schedule_work` on a work item returned `ret`. -/
  | schedule_work (w : Work) (ret : Bool)
  /-- The call `msleep(msecs)`. -/
  | msleep (msecs : Nat)
  /-- The call `cfg80211_inform_bss_data(wiphy, &data, ftype, bssid, tsf, capability,
  beacon_interval, ie, ielen, gfp)`. -/
  | cfg80211_inform_bss_data (wiphy : Nat) (data : cfg80211_inform_bss)
      (ftype : Nat) (bssid : List Nat) (tsf : Nat) (capability : Nat)
      (beacon_interval : Nat) (ie : List Nat) (ielen : Nat)
  /-- The call `cfg80211_put_bss(wiphy, bss)`. -/
  | cfg80211_put_bss (wiphy : Nat) (bss : Nat)
  /-- The call `cfg80211_scan_done(request, &info)` with `info.aborted = aborted`. -/
  | cfg80211_scan_done (request : Nat) (aborted : Bool)
  /-- The call `cfg80211_connect_timeout(ndev, NULL, NULL, 0, gfp, timeout_reason)`. -/
  | cfg80211_connect_timeout (ndev : Nat) (timeout_reason : nl80211_timeout_reason)
  /-- The call `cfg80211_connect_bss(ndev, NULL, NULL, NULL, 0, NULL, 0, status, gfp,
  timeout_reason)`. -/
  | cfg80211_connect_bss (ndev : Nat) (status : Nat)
      (timeout_reason : nl80211_timeout_reason)
  /-- The call `cfg80211_disconnected(ndev, reason, NULL, 0, locally_generated, gfp)`. -/
  | cfg80211_disconnected (ndev : Nat) (reason : Nat) (locally_generated : Bool)
  deriving DecidableEq, Repr

/-- The context `struct dummy_wifi_context`. `sem` is the count of the
semaphore, each work item is its pending bit, `disconnect_reason_code` is a
`u16`, `scan_request` is a pointer. -/
structure dummy_wifi_context where
  wiphy : Nat
  ndev : Nat
  sem : Nat
  ws_connect : Bool
  connecting_ssid : char_array sizeof_SSID_DUMMY
  ws_disconnect : Bool
  disconnect_reason_code : Nat
  ws_scan : Bool
  scan_request : Nat
  deriving DecidableEq

/-- The connect parameters `struct cfg80211_connect_params` as far as the driver
reads them: the SSID bytes; `ssid_len` is their number. -/
structure cfg80211_connect_params where
  ssid : List Nat
  deriving DecidableEq, Repr

/-- The field `sme->ssid_len`. -/
def cfg80211_connect_params.ssid_len (sme : cfg80211_connect_params) : Nat :=
  sme.ssid.length

/-- What a call leaves behind: its return value, the context and the log of
what it did. -/
structure Outcome (α : Type) where
  ret : α
  navi : dummy_wifi_context
  log : List Event

/-! ## Kernel primitives -/

/-- The call `down_interruptible(&sem)`: interrupted, it returns `-EINTR` and
leaves the count; otherwise it returns `0` holding the semaphore, the count one
lower (a waiter that is handed the semaphore finds the count at zero and leaves
it there). -/
def down_interruptible (intr : Bool) (sem : Nat) : Int × Nat :=
  if intr then (-EINTR, sem) else (0, sem - 1)

/-- The call `up(&sem)`. -/
def up (sem : Nat) : Nat := sem + 1

/-- The call `schedule_work(&w)` on the pending bit of `w`: the return value
(false when `w` was already pending) and the new pending bit. -/
def schedule_work (pending : Bool) : Bool × Bool := (!pending, true)

/-- One byte stored at index `i` of a `char[n]`. Inside the bounds the byte is
replaced. Outside them the array keeps its bytes and the index is logged: the
module is built with the bounds sanitizer in reporting mode
(`__ubsan_handle_out_of_bounds` in `dummywifi.mod.c`), so the run goes on. -/
def store_char {n : Nat} (a : char_array n) (i v : Nat) : char_array n × List Event :=
  if i < n then
    (⟨a.1.set i v, by rw [List.length_set]; exact a.2⟩, [])
  else
    (a, [Event.out_of_bounds i])

/-- The call `memcpy(dst + off, src, k)`, byte after byte, where the list holds
the `k` source bytes. -/
def memcpy {n : Nat} (dst : char_array n) (off : Nat) : List Nat → char_array n × List Event
  | [] => (dst, [])
  | b :: bs =>
    let s := store_char dst off b
    let r := memcpy s.1 (off + 1) bs
    (r.1, s.2 ++ r.2)

/-- The call `memcmp(a, b, k)`: zero when the first `k` bytes agree, else the
difference of the first pair that differs. -/
def memcmp : List Nat → List Nat → Nat → Int
  | a :: as, b :: bs, k + 1 => if a = b then memcmp as bs k else (a : Int) - (b : Int)
  | _, _, _ => 0

/-! ## The announcer -/

/-- The function `inform_dummy_bss`: one advertisement handed to
`cfg80211_inform_bss_data`, then the handle `bss` that call returned is put
back. The context is only read (`navi->wiphy`). -/
def inform_dummy_bss (bss : Nat) (navi : dummy_wifi_context) : List Event :=
  let data : cfg80211_inform_bss :=
    { chan := nvf_supported_channels_2ghz[0]?
      scan_width := NL80211_BSS_CHAN_WIDTH_20
      signal := 1337 }
  let bssid : List Nat := [0xaa, 0xbb, 0xcc, 0xdd, 0xee, 0xff]
  let ie0 : char_array (SSID_DUMMY_SIZE + 2) :=
    ⟨[WLAN_EID_SSID, SSID_DUMMY_SIZE] ++ List.replicate SSID_DUMMY_SIZE 0, by simp⟩
  let ie := memcpy ie0 2 (SSID_DUMMY.take SSID_DUMMY_SIZE)
  ie.2 ++
  [Event.cfg80211_inform_bss_data navi.wiphy data CFG80211_BSS_FTYPE_UNKNOWN bssid 0
      WLAN_CAPABILITY_ESS 100 ie.1.1 (SSID_DUMMY_SIZE + 2),
   Event.cfg80211_put_bss navi.wiphy bss]

/-! ## The work routines -/

/-- The routine `dummy_wifi_scan_routine`. -/
def dummy_wifi_scan_routine (intr : Bool) (bss : Nat) (navi : dummy_wifi_context) :
    Outcome Unit :=
  let info_aborted := false
  let log0 := [Event.msleep 100] ++ inform_dummy_bss bss navi
  let d := down_interruptible intr navi.sem
  if d.1 ≠ 0 then
    { ret := (), navi := navi, log := log0 ++ [Event.down_interruptible d.1] }
  else
    let navi1 := { navi with sem := d.2 }
    let done := Event.cfg80211_scan_done navi1.scan_request info_aborted
    let navi2 := { navi1 with scan_request := NULL }
    let navi3 := { navi2 with sem := up navi2.sem }
    { ret := (), navi := navi3,
      log := log0 ++ [Event.down_interruptible d.1, Event.load Field.scan_request, done,
        Event.store Field.scan_request, Event.up] }

/-- The routine `dummy_wifi_connect_routine`. -/
def dummy_wifi_connect_routine (intr : Bool) (bss : Nat) (navi : dummy_wifi_context) :
    Outcome Unit :=
  let d := down_interruptible intr navi.sem
  if d.1 ≠ 0 then
    { ret := (), navi := navi, log := [Event.down_interruptible d.1] }
  else
    let navi1 := { navi with sem := d.2 }
    let result :=
      if memcmp navi1.connecting_ssid.1 SSID_DUMMY sizeof_SSID_DUMMY ≠ 0 then
        [Event.cfg80211_connect_timeout navi1.ndev
          nl80211_timeout_reason.NL80211_TIMEOUT_SCAN]
      else
        inform_dummy_bss bss navi1 ++
        [Event.cfg80211_connect_bss navi1.ndev WLAN_STATUS_SUCCESS
          nl80211_timeout_reason.NL80211_TIMEOUT_UNSPECIFIED]
    let s := store_char navi1.connecting_ssid 0 0
    let navi2 := { navi1 with connecting_ssid := s.1 }
    let navi3 := { navi2 with sem := up navi2.sem }
    { ret := (), navi := navi3,
      log := [Event.down_interruptible d.1, Event.load Field.connecting_ssid] ++ result ++
        [Event.store Field.connecting_ssid] ++ s.2 ++ [Event.up] }

/-- The routine `dummy_wifi_disconnect_routine`. -/
def dummy_wifi_disconnect_routine (intr : Bool) (navi : dummy_wifi_context) :
    Outcome Unit :=
  let d := down_interruptible intr navi.sem
  if d.1 ≠ 0 then
    { ret := (), navi := navi, log := [Event.down_interruptible d.1] }
  else
    let navi1 := { navi with sem := d.2 }
    let gone := Event.cfg80211_disconnected navi1.ndev navi1.disconnect_reason_code true
    let navi2 := { navi1 with disconnect_reason_code := 0 }
    let navi3 := { navi2 with sem := up navi2.sem }
    { ret := (), navi := navi3,
      log := [Event.down_interruptible d.1, Event.load Field.disconnect_reason_code, gone,
        Event.store Field.disconnect_reason_code, Event.up] }

/-! ## The admission calls -/

/-- The operation `nvf_scan` (StartScan). -/
def nvf_scan (intr : Bool) (navi : dummy_wifi_context) (request : Nat) : Outcome Int :=
  let d := down_interruptible intr navi.sem
  if d.1 ≠ 0 then
    { ret := -ERESTARTSYS, navi := navi, log := [Event.down_interruptible d.1] }
  else
    let navi1 := { navi with sem := d.2 }
    if navi1.scan_request ≠ NULL then
      { ret := -EBUSY, navi := { navi1 with sem := up navi1.sem },
        log := [Event.down_interruptible d.1, Event.load Field.scan_request, Event.up] }
    else
      let navi2 := { navi1 with scan_request := request }
      let navi3 := { navi2 with sem := up navi2.sem }
      let q := schedule_work navi3.ws_scan
      let navi4 := { navi3 with ws_scan := q.2 }
      let log := [Event.down_interruptible d.1, Event.load Field.scan_request,
        Event.store Field.scan_request, Event.up, Event.schedule_work Work.ws_scan q.1]
      if !q.1 then
        { ret := -EBUSY, navi := navi4, log := log }
      else
        { ret := 0, navi := navi4, log := log }

/-- The operation `nvf_connect` (StartConnect). -/
def nvf_connect (intr : Bool) (navi : dummy_wifi_context) (sme : cfg80211_connect_params) :
    Outcome Int :=
  let ssid_len := if sme.ssid_len > 15 then 15 else sme.ssid_len
  let d := down_interruptible intr navi.sem
  if d.1 ≠ 0 then
    { ret := -ERESTARTSYS, navi := navi, log := [Event.down_interruptible d.1] }
  else
    let navi1 := { navi with sem := d.2 }
    let c := memcpy navi1.connecting_ssid 0 (sme.ssid.take ssid_len)
    let t := store_char c.1 ssid_len 0
    let navi2 := { navi1 with connecting_ssid := t.1 }
    let navi3 := { navi2 with sem := up navi2.sem }
    let q := schedule_work navi3.ws_connect
    let navi4 := { navi3 with ws_connect := q.2 }
    let log := [Event.down_interruptible d.1, Event.store Field.connecting_ssid] ++ c.2 ++
      [Event.store Field.connecting_ssid] ++ t.2 ++
      [Event.up, Event.schedule_work Work.ws_connect q.1]
    if !q.1 then
      { ret := -EBUSY, navi := navi4, log := log }
    else
      { ret := 0, navi := navi4, log := log }

/-- The operation `nvf_disconnect` (StartDisconnect); `reason_code` is a `u16`. -/
def nvf_disconnect (intr : Bool) (navi : dummy_wifi_context) (reason_code : Nat) :
    Outcome Int :=
  let d := down_interruptible intr navi.sem
  if d.1 ≠ 0 then
    { ret := -ERESTARTSYS, navi := navi, log := [Event.down_interruptible d.1] }
  else
    let navi1 := { navi with sem := d.2 }
    let navi2 := { navi1 with disconnect_reason_code := reason_code % 2 ^ 16 }
    let navi3 := { navi2 with sem := up navi2.sem }
    let q := schedule_work navi3.ws_disconnect
    let navi4 := { navi3 with ws_disconnect := q.2 }
    let log := [Event.down_interruptible d.1, Event.store Field.disconnect_reason_code,
      Event.up, Event.schedule_work Work.ws_disconnect q.1]
    if !q.1 then
      { ret := -EBUSY, navi := navi4, log := log }
    else
      { ret := 0, navi := navi4, log := log }

/-! ## Reading a log -/

/-- The event is an enqueue of a work item that succeeded. -/
def Event.is_enqueue : Event → Bool
  | Event.schedule_work _ true => true
  | _ => false

/-- The event is a call of `schedule_work`, successful or not. -/
def Event.is_schedule_work : Event → Bool
  | Event.schedule_work _ _ => true
  | _ => false

/-- The event is an announcement to the upper stack (onBssDiscovered). -/
def Event.is_bss_discovered : Event → Bool
  | Event.cfg80211_inform_bss_data .. => true
  | _ => false

/-- The event is a completion callback: scan complete, connect succeeded,
connect timeout or disconnected. -/
def Event.is_completion : Event → Bool
  | Event.cfg80211_scan_done .. => true
  | Event.cfg80211_connect_timeout .. => true
  | Event.cfg80211_connect_bss .. => true
  | Event.cfg80211_disconnected .. => true
  | _ => false

/-- The calls into the upper stack of a log: announcements and completion
callbacks, in order. -/
def callbacks (log : List Event) : List Event :=
  log.filter (fun e => e.is_bss_discovered || e.is_completion)

/-- The advertisement `inform_dummy_bss` hands over, for the context's wiphy. -/
def dummy_bss (wiphy : Nat) : Event :=
  Event.cfg80211_inform_bss_data wiphy
    { chan := some { band := NL80211_BAND_2GHZ, hw_value := 6, center_freq := 2437 }
      scan_width := NL80211_BSS_CHAN_WIDTH_20
      signal := 1337 }
    CFG80211_BSS_FTYPE_UNKNOWN [0xaa, 0xbb, 0xcc, 0xdd, 0xee, 0xff] 0 WLAN_CAPABILITY_ESS 100
    [0, 13, 77, 121, 65, 119, 101, 115, 111, 109, 101, 87, 105, 70, 105] 15

/-- The connect parameters for an SSID written as an ASCII string. -/
def ssid_of_string (s : String) : cfg80211_connect_params :=
  { ssid := s.toList.map Char.toNat }

/-! ## Sample contexts -/

/-- A context as module initialisation leaves it: semaphore free, nothing
pending, `connecting_ssid` empty. -/
def idle_context : dummy_wifi_context :=
  { wiphy := 1, ndev := 2, sem := 1, ws_connect := false,
    connecting_ssid := ⟨List.replicate 14 0, by decide⟩,
    ws_disconnect := false, disconnect_reason_code := 0,
    ws_scan := false, scan_request := NULL }

/-- A context in the middle of a scan: the request at address 4096 is stored
and its work is running. -/
def scanning_context : dummy_wifi_context :=
  { idle_context with scan_request := 4096 }

/-! ## Module initialisation -/

/-- What the kernel answers during bring-up: `kmalloc` returns `none` for
`NULL` or a block holding whatever bytes were there, `wiphy_new_nm` and
`alloc_netdev` return a pointer (`NULL` on failure), `wiphy_register` and
`register_netdev` return a status. -/
structure bringup_env where
  kmalloc : Option dummy_wifi_context
  wiphy_new_nm : Nat
  wiphy_register : Int
  alloc_netdev : Nat
  register_netdev : Int

/-- The function `dummy_wifi_create_context`: the new context, or `none` for
`NULL` when a step fails (the labels `l_error...` undo the earlier steps and
return `NULL`). -/
def dummy_wifi_create_context (env : bringup_env) : Option dummy_wifi_context :=
  match env.kmalloc with
  | none => none
  | some ret0 =>
    let ret1 := { ret0 with wiphy := env.wiphy_new_nm }
    if ret1.wiphy = NULL then none
    else if env.wiphy_register < 0 then none
    else
      let ret2 := { ret1 with ndev := env.alloc_netdev }
      if ret2.ndev = NULL then none
      else if env.register_netdev ≠ 0 then none
      else some ret2

/-- The function `virtual_wifi_init`: its return value and the global `g_ctx`
it leaves. `sema_init(&sem, 1)` sets the count to one, `INIT_WORK` leaves a work
item not pending, and the value of the C expression `g_ctx == NULL` is `1` or
`0`. -/
def virtual_wifi_init (env : bringup_env) : Int × Option dummy_wifi_context :=
  let g_ctx :=
    match dummy_wifi_create_context env with
    | none => none
    | some g =>
      some { g with
        sem := 1
        ws_connect := false
        connecting_ssid := (store_char g.connecting_ssid 0 0).1
        ws_disconnect := false
        disconnect_reason_code := 0
        ws_scan := false
        scan_request := NULL }
  (if g_ctx = none then 1 else 0, g_ctx)

/-- A bring-up in which every step succeeds on a block of stale bytes. -/
def good_env : bringup_env :=
  { kmalloc := some
      { wiphy := 99, ndev := 98, sem := 7, ws_connect := true,
        connecting_ssid := ⟨List.replicate 14 255, by decide⟩,
        ws_disconnect := true, disconnect_reason_code := 4660,
        ws_scan := true, scan_request := 48879 },
    wiphy_new_nm := 1, wiphy_register := 0, alloc_netdev := 2, register_netdev := 0 }

/-- A bring-up in which `kmalloc` fails. -/
def failing_env : bringup_env :=
  { good_env with kmalloc := none }

/-! ## Locking discipline of a log -/

/-- One pass over a log with the flag "the semaphore is held": the flag after
the log, or `none` when the log breaks the discipline (an acquisition while
holding, a release or an access to a guarded field while not holding). An
out-of-bounds store counts as a write of `connecting_ssid`. -/
def lock_trace : Bool → List Event → Option Bool
  | held, [] => some held
  | held, Event.down_interruptible ret :: es =>
    if held then none else lock_trace (decide (ret = 0)) es
  | held, Event.up :: es => if held then lock_trace false es else none
  | held, Event.load _ :: es => if held then lock_trace true es else none
  | held, Event.store _ :: es => if held then lock_trace true es else none
  | held, Event.out_of_bounds _ :: es => if held then lock_trace true es else none
  | held, _ :: es => lock_trace held es

/-- The log keeps the discipline from a free semaphore and ends with it
released. -/
def well_locked (log : List Event) : Prop :=
  lock_trace false log = some false

instance (log : List Event) : Decidable (well_locked log) := by
  unfold well_locked
  infer_instance

/-- The context after one accepted connect to "SomeOtherNet" from the idle
context: the connect work is queued and has not run. -/
def connect_queued_context : dummy_wifi_context :=
  (nvf_connect false idle_context (ssid_of_string ("SomeOtherNet"))).navi

/-- The context after one accepted disconnect with reason 3 from the idle
context: the disconnect work is queued and has not run. -/
def disconnect_queued_context : dummy_wifi_context :=
  (nvf_disconnect false idle_context 3).navi

/-- A context with the scan work pending and no request stored. The scan
state machine does not reach it with request handles that are not `NULL`. -/
def scan_queued_context : dummy_wifi_context :=
  { idle_context with ws_scan := true }

/-! ## The scan state machine -/

/-- A scan request handle: a pointer that is not `NULL`. -/
abbrev scan_handle : Type := { p : Nat // p ≠ NULL }

/-- The scan side of the driver between two steps: the context, the number of
scan works enqueued and not yet taken by the worker, and the number of scan
works taken by the worker whose routine has not yet run. -/
structure scan_system where
  navi : dummy_wifi_context
  queued : Nat
  running : Nat

/-- The steps of the scan side: a call of `nvf_scan`; the worker taking the
queued scan work; the routine of a taken work running. The acquisition inside
the call and inside the routine succeeds or is interrupted. -/
inductive scan_action where
  | start_scan (intr : Bool) (request : scan_handle)
  | task_begin
  | task_end (intr : Bool) (bss : Nat)

/-- One step and its log. `nvf_scan` enqueues as many works as its log has
successful `schedule_work` calls. The worker takes a queued work, clearing its
pending bit, and does nothing when none is queued; the routine of a taken work
is `dummy_wifi_scan_routine`, and nothing runs when no work was taken. -/
def scan_step (s : scan_system) : scan_action → scan_system × List Event
  | scan_action.start_scan intr request =>
    let r := nvf_scan intr s.navi request.1
    ({ navi := r.navi, queued := s.queued + (r.log.filter Event.is_enqueue).length,
       running := s.running }, r.log)
  | scan_action.task_begin =>
    if 0 < s.queued then
      ({ navi := { s.navi with ws_scan := false }, queued := s.queued - 1,
         running := s.running + 1 }, [])
    else (s, [])
  | scan_action.task_end intr bss =>
    if 0 < s.running then
      let r := dummy_wifi_scan_routine intr bss s.navi
      ({ navi := r.navi, queued := s.queued, running := s.running - 1 }, r.log)
    else (s, [])

/-- A sequence of steps: the state it ends in and the whole log. -/
def scan_run (s : scan_system) : List scan_action → scan_system × List Event
  | [] => (s, [])
  | a :: as =>
    let p := scan_step s a
    let q := scan_run p.1 as
    (q.1, p.2 ++ q.2)

/-- The invariant of the scan side: at most one work is queued or running, the
pending bit of `ws_scan` says whether one is queued, and while one is queued or
running `scan_request` is set. -/
def scan_inv (s : scan_system) : Prop :=
  s.queued + s.running ≤ 1 ∧ (s.navi.ws_scan = true ↔ s.queued = 1) ∧
  (0 < s.queued + s.running → s.navi.scan_request ≠ NULL)

/-- A schedule: a scan is accepted, a second request is refused while the first
is queued and again while it runs, the first completes, the second request is
then accepted, its routine is interrupted, and a third request is refused. -/
def sample_scan_actions : List scan_action :=
  [scan_action.start_scan false ⟨4096, by decide⟩,
   scan_action.start_scan false ⟨8192, by decide⟩,
   scan_action.task_begin,
   scan_action.start_scan false ⟨8192, by decide⟩,
   scan_action.task_end false 77,
   scan_action.start_scan false ⟨8192, by decide⟩,
   scan_action.task_begin,
   scan_action.task_end true 78,
   scan_action.start_scan false ⟨12288, by decide⟩]

/-! ## Basic facts -/

theorem SSID_DUMMY_eq :
    SSID_DUMMY = [77, 121, 65, 119, 101, 115, 111, 109, 101, 87, 105, 70, 105, 0] := by
  decide

theorem sizeof_SSID_DUMMY_eq : sizeof_SSID_DUMMY = 14 := by
  decide

theorem inform_dummy_bss_eq (bss : Nat) (navi : dummy_wifi_context) :
    inform_dummy_bss bss navi = [dummy_bss navi.wiphy, Event.cfg80211_put_bss navi.wiphy bss] := by
  rfl

/-! ## Bytes of a `char` array after `store_char`, `memcpy` and `nvf_connect` -/

theorem store_char_getElem? {n : Nat} (a : char_array n) (i v j : Nat) :
    (store_char a i v).1.1[j]? = if i = j ∧ j < n then some v else a.1[j]? := by
  unfold store_char
  by_cases hi : i < n
  · simp only [hi, if_true, List.getElem?_set, a.2]
    by_cases hij : i = j
    · subst hij; simp [hi]
    · simp [hij]
  · simp only [hi, if_false]
    have : ¬ (i = j ∧ j < n) := by omega
    simp [this]

theorem memcpy_getElem? {n : Nat} (src : List Nat) :
    ∀ (dst : char_array n) (off j : Nat),
      (memcpy dst off src).1.1[j]? =
        if off ≤ j ∧ j < off + src.length ∧ j < n then src[j - off]? else dst.1[j]? := by
  induction src with
  | nil =>
    intro dst off j
    simp only [memcpy, List.length_nil]
    rw [if_neg (by omega)]
  | cons b bs ih =>
    intro dst off j
    simp only [memcpy, ih, store_char_getElem?, List.length_cons]
    by_cases h1 : off + 1 ≤ j ∧ j < off + 1 + bs.length ∧ j < n
    · have h2 : off ≤ j ∧ j < off + (bs.length + 1) ∧ j < n := by omega
      have h3 : j - off = (j - (off + 1)) + 1 := by omega
      simp only [h1, h2, and_self, if_true]
      rw [h3, List.getElem?_cons_succ]
    · by_cases h4 : off = j ∧ j < n
      · have h2 : off ≤ j ∧ j < off + (bs.length + 1) ∧ j < n := by omega
        have h3 : j - off = 0 := by omega
        simp [h1, h2, h4, h3]
      · have h2 : ¬ (off ≤ j ∧ j < off + (bs.length + 1) ∧ j < n) := by omega
        simp [h1, h2, h4]

theorem memcmp_self (a : List Nat) : ∀ k : Nat, memcmp a a k = 0 := by
  induction a with
  | nil => intro k; simp [memcmp]
  | cons x xs ih =>
    intro k
    cases k with
    | zero => simp [memcmp]
    | succ k => simp [memcmp, ih]

theorem memcmp_eq_zero (a : List Nat) :
    ∀ (b : List Nat) (k : Nat), a.length = k → b.length = k → memcmp a b k = 0 → a = b := by
  induction a with
  | nil =>
    intro b k ha hb _
    simp only [List.length_nil] at ha
    subst ha
    exact (List.length_eq_zero.mp hb).symm
  | cons x xs ih =>
    intro b k ha hb h
    cases b with
    | nil => simp only [List.length_cons, List.length_nil] at ha hb; omega
    | cons y ys =>
      cases k with
      | zero => simp at ha
      | succ k =>
        simp only [List.length_cons, Nat.add_right_cancel_iff] at ha hb
        by_cases hxy : x = y
        · subst hxy
          simp only [memcmp, if_true] at h
          rw [ih ys k ha hb h]
        · simp only [memcmp, hxy, if_false] at h
          omega

/-- The bytes of `connecting_ssid` after `nvf_connect` with the semaphore
acquired: index `j` holds the byte `j` of the SSID below the clamped length,
zero at the clamped length, and its old value above. -/
theorem nvf_connect_getElem? (navi : dummy_wifi_context) (sme : cfg80211_connect_params)
    (j : Nat) (hj : j < sizeof_SSID_DUMMY) :
    (nvf_connect false navi sme).navi.connecting_ssid.1[j]? =
      if j < min sme.ssid_len 15 then sme.ssid[j]?
      else if j = min sme.ssid_len 15 then some 0
      else navi.connecting_ssid.1[j]? := by
  have hlen : (if sme.ssid_len > 15 then 15 else sme.ssid_len) = min sme.ssid_len 15 := by
    split <;> omega
  have hq : (nvf_connect false navi sme).navi.connecting_ssid =
      (store_char (memcpy navi.connecting_ssid 0 (sme.ssid.take (min sme.ssid_len 15))).1
        (min sme.ssid_len 15) 0).1 := by
    cases hw : navi.ws_connect <;>
      simp [nvf_connect, down_interruptible, schedule_work, hw, hlen]
  rw [hq, store_char_getElem?, memcpy_getElem?]
  have hl : (sme.ssid.take (min sme.ssid_len 15)).length = min sme.ssid_len 15 := by
    simp [cfg80211_connect_params.ssid_len]
  rw [hl]
  by_cases h1 : j < min sme.ssid_len 15
  · rw [if_neg (by omega), if_pos (by omega), if_pos h1, Nat.sub_zero, List.getElem?_take,
      if_pos h1]
  · by_cases h2 : j = min sme.ssid_len 15
    · rw [if_pos ⟨h2.symm, hj⟩, if_neg h1, if_pos h2]
    · rw [if_neg (by omega), if_neg (by omega), if_neg h1, if_neg h2]

/-! ## Admission of a scan -/

/-- C1 (at most one scan). Whenever `scan_request` is already set, `nvf_scan`
with the semaphore acquired returns `-EBUSY`; its log is the acquisition, the
read of `scan_request` and the release, so no work is scheduled; the context is
the old one with the semaphore released, so `scan_request` still holds the
stored handle and the pending bit of `ws_scan` is untouched. -/
theorem nvf_scan_pending_is_busy (navi : dummy_wifi_context) (request : Nat)
    (h : navi.scan_request ≠ NULL) :
    (nvf_scan false navi request).ret = -EBUSY ∧
    (nvf_scan false navi request).log =
      [Event.down_interruptible 0, Event.load Field.scan_request, Event.up] ∧
    (nvf_scan false navi request).log.filter Event.is_schedule_work = [] ∧
    (nvf_scan false navi request).navi.scan_request = navi.scan_request ∧
    (nvf_scan false navi request).navi.ws_scan = navi.ws_scan ∧
    (nvf_scan false navi request).navi = { navi with sem := up (navi.sem - 1) } := by
  simp [nvf_scan, down_interruptible, h, Event.is_schedule_work]

theorem nvf_scan_pending_is_busy_witness :
    scanning_context.scan_request ≠ NULL ∧
    (nvf_scan false scanning_context 8192).ret = -EBUSY ∧
    (nvf_scan false scanning_context 8192).navi.scan_request = 4096 ∧
    (nvf_scan false scanning_context 8192).navi.sem = 1 :=
  have h := nvf_scan_pending_is_busy scanning_context 8192 (by decide)
  ⟨by decide, h.1, h.2.2.2.1, by rw [h.2.2.2.2.2]; rfl⟩

/-- C2 (status of StartScan). For every context and request: `nvf_scan` returns
`-ERESTARTSYS` exactly when the acquisition is interrupted; with the semaphore
acquired it returns `-EBUSY` exactly when `scan_request` is already set or the
enqueue fails (`schedule_work` on `ws_scan` returns false); in every other case
it returns `0`; and whenever it returns `0`, `scan_request` is the given request
and the log holds exactly one `schedule_work`, on `ws_scan` and successful. -/
theorem nvf_scan_status (intr : Bool) (navi : dummy_wifi_context) (request : Nat) :
    ((nvf_scan intr navi request).ret = -ERESTARTSYS ↔ intr = true) ∧
    (intr = false →
      ((nvf_scan intr navi request).ret = -EBUSY ↔
        (navi.scan_request ≠ NULL ∨ (schedule_work navi.ws_scan).1 = false))) ∧
    ((nvf_scan intr navi request).ret = 0 ↔
      (intr = false ∧ navi.scan_request = NULL ∧ (schedule_work navi.ws_scan).1 = true)) ∧
    ((nvf_scan intr navi request).ret = 0 →
      (nvf_scan intr navi request).navi.scan_request = request ∧
      (nvf_scan intr navi request).navi.ws_scan = true ∧
      (nvf_scan intr navi request).log.filter Event.is_schedule_work =
        [Event.schedule_work Work.ws_scan true]) := by
  cases intr <;> by_cases h : navi.scan_request = NULL <;> cases hw : navi.ws_scan <;>
    simp [nvf_scan, down_interruptible, schedule_work, h, hw, Event.is_schedule_work,
      EINTR, EBUSY, ERESTARTSYS]

/-! ## Interrupted admission -/

/-- C3 (cancelled admission is atomic). When the acquisition is interrupted,
each of `nvf_scan`, `nvf_connect` and `nvf_disconnect` returns `-ERESTARTSYS`,
logs nothing but the failed acquisition (no `schedule_work`) and returns the
context as it was, so `scan_request`, `connecting_ssid` and
`disconnect_reason_code` are unchanged; `-ERESTARTSYS` differs from `-EBUSY` and
from `0`. -/
theorem admission_interrupted (navi : dummy_wifi_context) (request : Nat)
    (sme : cfg80211_connect_params) (reason_code : Nat) :
    ((nvf_scan true navi request).ret = -ERESTARTSYS ∧
      (nvf_scan true navi request).log = [Event.down_interruptible (-EINTR)] ∧
      (nvf_scan true navi request).log.filter Event.is_schedule_work = [] ∧
      (nvf_scan true navi request).navi = navi) ∧
    ((nvf_connect true navi sme).ret = -ERESTARTSYS ∧
      (nvf_connect true navi sme).log = [Event.down_interruptible (-EINTR)] ∧
      (nvf_connect true navi sme).log.filter Event.is_schedule_work = [] ∧
      (nvf_connect true navi sme).navi = navi) ∧
    ((nvf_disconnect true navi reason_code).ret = -ERESTARTSYS ∧
      (nvf_disconnect true navi reason_code).log = [Event.down_interruptible (-EINTR)] ∧
      (nvf_disconnect true navi reason_code).log.filter Event.is_schedule_work = [] ∧
      (nvf_disconnect true navi reason_code).navi = navi) ∧
    -ERESTARTSYS ≠ -EBUSY ∧ -ERESTARTSYS ≠ (0 : Int) := by
  simp [nvf_scan, nvf_connect, nvf_disconnect, down_interruptible, EINTR, EBUSY, ERESTARTSYS,
    Event.is_schedule_work]

/-! ## Disconnect and scan, end to end -/

/-- C8 (disconnect delivery). For every 16-bit reason code `r` and every
context, when `nvf_disconnect` is accepted (returns `0`) and
`dummy_wifi_disconnect_routine` then runs with the semaphore acquired, the
routine makes exactly one call into the upper stack,
`cfg80211_disconnected` with reason `r` and `locally_generated = true`, and
leaves `disconnect_reason_code` at `0`. -/
theorem disconnect_delivery (navi : dummy_wifi_context) (r : Nat) (hr : r < 2 ^ 16)
    (_hacc : (nvf_disconnect false navi r).ret = 0) :
    callbacks (dummy_wifi_disconnect_routine false (nvf_disconnect false navi r).navi).log =
      [Event.cfg80211_disconnected navi.ndev r true] ∧
    (dummy_wifi_disconnect_routine false
      (nvf_disconnect false navi r).navi).navi.disconnect_reason_code = 0 := by
  have hr2 : r % 65536 = r := Nat.mod_eq_of_lt (by simpa using hr)
  cases hw : navi.ws_disconnect <;>
    simp [nvf_disconnect, dummy_wifi_disconnect_routine, down_interruptible, schedule_work,
      callbacks, Event.is_bss_discovered, Event.is_completion, hr2, hw]

theorem disconnect_delivery_witness :
    (nvf_disconnect false idle_context 7).ret = 0 ∧
    callbacks (dummy_wifi_disconnect_routine false (nvf_disconnect false idle_context 7).navi).log =
      [Event.cfg80211_disconnected 2 7 true] ∧
    (dummy_wifi_disconnect_routine false
      (nvf_disconnect false idle_context 7).navi).navi.disconnect_reason_code = 0 :=
  ⟨by decide, disconnect_delivery idle_context 7 (by decide) (by decide)⟩

/-- C9 (scan completion). For every request handle `req`, when `nvf_scan` is
accepted (returns `0`) and `dummy_wifi_scan_routine` then runs with the
semaphore acquired, the routine calls the upper stack exactly twice: first the
one announcement of the dummy BSS, then `cfg80211_scan_done` with the handle
`req` and `aborted = false`; afterwards `scan_request` is `NULL`. -/
theorem scan_completion (navi : dummy_wifi_context) (req bss : Nat)
    (hacc : (nvf_scan false navi req).ret = 0) :
    callbacks (dummy_wifi_scan_routine false bss (nvf_scan false navi req).navi).log =
      [dummy_bss navi.wiphy, Event.cfg80211_scan_done req false] ∧
    (dummy_wifi_scan_routine false bss (nvf_scan false navi req).navi).navi.scan_request =
      NULL := by
  have hs : navi.scan_request = NULL := by
    by_contra hne
    simp [nvf_scan, down_interruptible, hne, EBUSY] at hacc
  cases hw : navi.ws_scan <;>
    simp [nvf_scan, dummy_wifi_scan_routine, down_interruptible, schedule_work, callbacks,
      Event.is_bss_discovered, Event.is_completion, inform_dummy_bss_eq, dummy_bss, hs, hw]

theorem scan_completion_witness :
    (nvf_scan false idle_context 4096).ret = 0 ∧
    callbacks (dummy_wifi_scan_routine false 77 (nvf_scan false idle_context 4096).navi).log =
      [dummy_bss 1, Event.cfg80211_scan_done 4096 false] ∧
    (dummy_wifi_scan_routine false 77 (nvf_scan false idle_context 4096).navi).navi.scan_request =
      NULL :=
  ⟨by decide, scan_completion idle_context 4096 77 (by decide)⟩

/-! ## Interrupted work routines -/

/-- C10 (interrupted task bodies abandon silently). When the acquisition inside
a work routine is interrupted, the routine returns the context as it was
(`scan_request`, `connecting_ssid` and `disconnect_reason_code` keep their
values) and its log holds no completion callback: the connect and disconnect
routines log only the failed acquisition, the scan routine has slept and
announced the dummy BSS before. -/
theorem routine_interrupted (navi : dummy_wifi_context) (bss : Nat) :
    ((dummy_wifi_scan_routine true bss navi).navi = navi ∧
      (dummy_wifi_scan_routine true bss navi).log =
        [Event.msleep 100, dummy_bss navi.wiphy, Event.cfg80211_put_bss navi.wiphy bss,
          Event.down_interruptible (-EINTR)] ∧
      (dummy_wifi_scan_routine true bss navi).log.filter Event.is_completion = []) ∧
    ((dummy_wifi_connect_routine true bss navi).navi = navi ∧
      (dummy_wifi_connect_routine true bss navi).log = [Event.down_interruptible (-EINTR)] ∧
      (dummy_wifi_connect_routine true bss navi).log.filter Event.is_completion = []) ∧
    ((dummy_wifi_disconnect_routine true navi).navi = navi ∧
      (dummy_wifi_disconnect_routine true navi).log = [Event.down_interruptible (-EINTR)] ∧
      (dummy_wifi_disconnect_routine true navi).log.filter Event.is_completion = []) := by
  simp [dummy_wifi_scan_routine, dummy_wifi_connect_routine, dummy_wifi_disconnect_routine,
    down_interruptible, EINTR, Event.is_completion, inform_dummy_bss_eq, dummy_bss]

/-! ## Connect, end to end -/

theorem nvf_connect_frame (intr : Bool) (navi : dummy_wifi_context)
    (sme : cfg80211_connect_params) :
    (nvf_connect intr navi sme).navi.ndev = navi.ndev ∧
    (nvf_connect intr navi sme).navi.wiphy = navi.wiphy := by
  cases intr <;> cases hw : navi.ws_connect <;>
    simp [nvf_connect, down_interruptible, schedule_work, hw, EINTR]

theorem connect_routine_match (navi : dummy_wifi_context) (bss : Nat)
    (h : navi.connecting_ssid.1 = SSID_DUMMY) :
    callbacks (dummy_wifi_connect_routine false bss navi).log =
      [dummy_bss navi.wiphy,
        Event.cfg80211_connect_bss navi.ndev WLAN_STATUS_SUCCESS
          nl80211_timeout_reason.NL80211_TIMEOUT_UNSPECIFIED] := by
  simp [dummy_wifi_connect_routine, down_interruptible, h, memcmp_self, callbacks,
    Event.is_bss_discovered, Event.is_completion, inform_dummy_bss_eq, dummy_bss,
    store_char, sizeof_SSID_DUMMY_eq]

theorem connect_routine_mismatch (navi : dummy_wifi_context) (bss : Nat)
    (h : navi.connecting_ssid.1 ≠ SSID_DUMMY) :
    callbacks (dummy_wifi_connect_routine false bss navi).log =
      [Event.cfg80211_connect_timeout navi.ndev
        nl80211_timeout_reason.NL80211_TIMEOUT_SCAN] := by
  have hne : memcmp navi.connecting_ssid.1 SSID_DUMMY 14 ≠ 0 := fun h0 =>
    h (memcmp_eq_zero _ _ 14 navi.connecting_ssid.2 rfl h0)
  simp [dummy_wifi_connect_routine, down_interruptible, hne, callbacks,
    Event.is_bss_discovered, Event.is_completion, store_char, sizeof_SSID_DUMMY_eq]

theorem connect_routine_clears (navi : dummy_wifi_context) (bss : Nat) :
    (dummy_wifi_connect_routine false bss navi).navi.connecting_ssid.1[0]? = some 0 := by
  have hq : (dummy_wifi_connect_routine false bss navi).navi.connecting_ssid =
      (store_char navi.connecting_ssid 0 0).1 := by
    simp [dummy_wifi_connect_routine, down_interruptible]
  rw [hq, store_char_getElem?, if_pos ⟨rfl, by decide⟩]

theorem SSID_DUMMY_no_inner_zero : ∀ n : Nat, n < 13 → SSID_DUMMY[n]? ≠ some 0 := by
  decide

/-- C4 (connect success). From every context, when `nvf_connect` with the SSID
"MyAwesomeWiFi" is accepted (returns `0`) and `dummy_wifi_connect_routine`
then runs with the semaphore acquired, the routine calls the upper stack
exactly twice: first the one announcement of the dummy BSS, then
`cfg80211_connect_bss` with status `WLAN_STATUS_SUCCESS`; there is no
`cfg80211_connect_timeout`; afterwards the first byte of `connecting_ssid` is
zero. -/
theorem connect_success (navi : dummy_wifi_context) (bss : Nat)
    (_hacc : (nvf_connect false navi (ssid_of_string ("MyAwesomeWiFi"))).ret = 0) :
    callbacks (dummy_wifi_connect_routine false bss
        (nvf_connect false navi (ssid_of_string ("MyAwesomeWiFi"))).navi).log =
      [dummy_bss navi.wiphy,
        Event.cfg80211_connect_bss navi.ndev WLAN_STATUS_SUCCESS
          nl80211_timeout_reason.NL80211_TIMEOUT_UNSPECIFIED] ∧
    (dummy_wifi_connect_routine false bss
      (nvf_connect false navi (ssid_of_string ("MyAwesomeWiFi"))).navi).navi.connecting_ssid.1[0]? =
      some 0 := by
  have hR : (nvf_connect false navi (ssid_of_string ("MyAwesomeWiFi"))).navi.connecting_ssid.1 =
      SSID_DUMMY := by
    apply List.ext_getElem?
    intro j
    by_cases hj : j < 14
    · rw [nvf_connect_getElem? _ _ j hj]
      have hl : (ssid_of_string ("MyAwesomeWiFi")).ssid_len = 13 := by decide
      have hs : (ssid_of_string ("MyAwesomeWiFi")).ssid =
          [77, 121, 65, 119, 101, 115, 111, 109, 101, 87, 105, 70, 105] := by decide
      rw [hl, hs, SSID_DUMMY_eq]
      interval_cases j <;> simp
    · rw [List.getElem?_eq_none, List.getElem?_eq_none]
      · rw [SSID_DUMMY_eq]; simp only [List.length_cons, List.length_nil]; omega
      · rw [(nvf_connect false navi _).navi.connecting_ssid.2, sizeof_SSID_DUMMY_eq]; omega
  have hf := nvf_connect_frame false navi (ssid_of_string ("MyAwesomeWiFi"))
  refine ⟨?_, connect_routine_clears _ bss⟩
  rw [connect_routine_match _ bss hR, hf.1, hf.2]

theorem connect_success_witness :
    (nvf_connect false idle_context (ssid_of_string ("MyAwesomeWiFi"))).ret = 0 ∧
    callbacks (dummy_wifi_connect_routine false 77
        (nvf_connect false idle_context (ssid_of_string ("MyAwesomeWiFi"))).navi).log =
      [dummy_bss 1,
        Event.cfg80211_connect_bss 2 WLAN_STATUS_SUCCESS
          nl80211_timeout_reason.NL80211_TIMEOUT_UNSPECIFIED] ∧
    (dummy_wifi_connect_routine false 77
      (nvf_connect false idle_context
        (ssid_of_string ("MyAwesomeWiFi"))).navi).navi.connecting_ssid.1[0]? = some 0 :=
  ⟨by decide, connect_success idle_context 77 (by decide)⟩

theorem nvf_connect_stores_known (navi : dummy_wifi_context) (sme : cfg80211_connect_params)
    (h : sme.ssid = SSID_DUMMY.take SSID_DUMMY_SIZE) :
    (nvf_connect false navi sme).navi.connecting_ssid.1 = SSID_DUMMY := by
  have hs : sme.ssid = [77, 121, 65, 119, 101, 115, 111, 109, 101, 87, 105, 70, 105] := by
    rw [h]; decide
  have hl : sme.ssid_len = 13 := by
    simp [cfg80211_connect_params.ssid_len, hs]
  apply List.ext_getElem?
  intro j
  by_cases hj : j < 14
  · rw [nvf_connect_getElem? _ _ j hj, hl, hs, SSID_DUMMY_eq]
    interval_cases j <;> simp
  · rw [List.getElem?_eq_none, List.getElem?_eq_none]
    · rw [SSID_DUMMY_eq]; simp only [List.length_cons, List.length_nil]; omega
    · rw [(nvf_connect false navi _).navi.connecting_ssid.2, sizeof_SSID_DUMMY_eq]; omega

theorem nvf_connect_stores_other_short (navi : dummy_wifi_context)
    (sme : cfg80211_connect_params) (hlen : sme.ssid_len ≤ 13)
    (hne : sme.ssid ≠ SSID_DUMMY.take SSID_DUMMY_SIZE) :
    (nvf_connect false navi sme).navi.connecting_ssid.1 ≠ SSID_DUMMY := by
  intro hR
  have h13 : SSID_DUMMY_SIZE = 13 := by decide
  have hget : ∀ j, j < 14 →
      SSID_DUMMY[j]? =
        if j < min sme.ssid_len 15 then sme.ssid[j]?
        else if j = min sme.ssid_len 15 then some 0
        else navi.connecting_ssid.1[j]? := by
    intro j hj
    rw [← hR]
    exact nvf_connect_getElem? navi sme j hj
  rcases Nat.lt_or_ge sme.ssid_len 13 with hlt | hge
  · have h := hget sme.ssid_len (by omega)
    rw [if_neg (by omega), if_pos (by omega)] at h
    exact SSID_DUMMY_no_inner_zero _ hlt h
  · have heq : sme.ssid.length = 13 := by
      have : sme.ssid_len = 13 := by omega
      exact this
    apply hne
    apply List.ext_getElem?
    intro j
    by_cases hj : j < 13
    · have h := hget j (by omega)
      have hl : sme.ssid_len = 13 := heq
      rw [if_pos (by omega)] at h
      rw [List.getElem?_take, h13, if_pos hj]
      exact h.symm
    · rw [List.getElem?_eq_none, List.getElem?_eq_none]
      · simp only [List.length_take]
        omega
      · omega

/-- Connect failure inside the bounds: for every SSID of at most 13 bytes that
is not "MyAwesomeWiFi", when `nvf_connect` is accepted and the connect routine
then runs with the semaphore acquired, the routine makes exactly one call into
the upper stack, `cfg80211_connect_timeout` with the reason
`NL80211_TIMEOUT_SCAN`. -/
theorem connect_failure_in_bounds (navi : dummy_wifi_context) (bss : Nat)
    (sme : cfg80211_connect_params) (hlen : sme.ssid_len ≤ 13)
    (hne : sme.ssid ≠ (ssid_of_string ("MyAwesomeWiFi")).ssid)
    (_hacc : (nvf_connect false navi sme).ret = 0) :
    callbacks (dummy_wifi_connect_routine false bss (nvf_connect false navi sme).navi).log =
      [Event.cfg80211_connect_timeout navi.ndev
        nl80211_timeout_reason.NL80211_TIMEOUT_SCAN] := by
  have hk : (ssid_of_string ("MyAwesomeWiFi")).ssid = SSID_DUMMY.take SSID_DUMMY_SIZE := by
    decide
  rw [connect_routine_mismatch _ bss
    (nvf_connect_stores_other_short navi sme hlen (fun h => hne (h.trans hk.symm))),
    (nvf_connect_frame false navi sme).1]

/-- C5, the code at the 14-byte SSID made of "MyAwesomeWiFi" and one zero
byte. The SSID is not the known one; `nvf_connect` accepts it, its copy fills
the 14 bytes of `connecting_ssid` and its terminator is stored at index 14,
outside the array; the connect routine then finds the 14 bytes equal to
`SSID_DUMMY`, announces the dummy BSS and reports success, where the claim has
one timeout and no announcement. -/
theorem connect_failure_nul_byte :
    ({ ssid := SSID_DUMMY } : cfg80211_connect_params).ssid ≠
      (ssid_of_string ("MyAwesomeWiFi")).ssid ∧
    ({ ssid := SSID_DUMMY } : cfg80211_connect_params).ssid_len = 14 ∧
    (nvf_connect false idle_context { ssid := SSID_DUMMY }).ret = 0 ∧
    (nvf_connect false idle_context { ssid := SSID_DUMMY }).log =
      [Event.down_interruptible 0, Event.store Field.connecting_ssid,
        Event.store Field.connecting_ssid, Event.out_of_bounds 14, Event.up,
        Event.schedule_work Work.ws_connect true] ∧
    (nvf_connect false idle_context { ssid := SSID_DUMMY }).navi.connecting_ssid.1 =
      SSID_DUMMY ∧
    callbacks (dummy_wifi_connect_routine false 77
        (nvf_connect false idle_context { ssid := SSID_DUMMY }).navi).log =
      [dummy_bss 1,
        Event.cfg80211_connect_bss 2 WLAN_STATUS_SUCCESS
          nl80211_timeout_reason.NL80211_TIMEOUT_UNSPECIFIED] ∧
    callbacks (dummy_wifi_connect_routine false 77
        (nvf_connect false idle_context { ssid := SSID_DUMMY }).navi).log ≠
      [Event.cfg80211_connect_timeout 2 nl80211_timeout_reason.NL80211_TIMEOUT_SCAN] := by
  decide

/-! ## The SSID buffer -/

/-- An SSID of at most 13 bytes fits: after `nvf_connect` with the semaphore
acquired, `connecting_ssid` begins with the bytes of the SSID followed by a
zero. -/
theorem nvf_connect_stores_short (navi : dummy_wifi_context) (sme : cfg80211_connect_params)
    (h : sme.ssid_len ≤ 13) :
    (nvf_connect false navi sme).navi.connecting_ssid.1.take (sme.ssid_len + 1) =
      sme.ssid ++ [0] := by
  have hlen : sme.ssid.length = sme.ssid_len := rfl
  apply List.ext_getElem?
  intro j
  rw [List.getElem?_take]
  by_cases hj : j < sme.ssid_len + 1
  · rw [if_pos hj, nvf_connect_getElem? navi sme j (by rw [sizeof_SSID_DUMMY_eq]; omega)]
    by_cases hj2 : j < sme.ssid_len
    · rw [if_pos (by omega), List.getElem?_append_left (by omega)]
    · have hj3 : j = sme.ssid_len := by omega
      rw [if_neg (by omega), if_pos (by omega), List.getElem?_append_right (by omega), hj3,
        hlen, Nat.sub_self]
      rfl
  · rw [if_neg hj, List.getElem?_eq_none]
    simp only [List.length_append, List.length_cons, List.length_nil]
    omega

theorem memcpy_log_in_bounds {n : Nat} (src : List Nat) :
    ∀ (dst : char_array n) (off : Nat), off + src.length ≤ n → (memcpy dst off src).2 = [] := by
  induction src with
  | nil => intro dst off _; rfl
  | cons b bs ih =>
    intro dst off h
    simp only [List.length_cons] at h
    have hs : (store_char dst off b).2 = [] := by
      unfold store_char
      rw [if_pos (by omega)]
    simp only [memcpy, hs, List.nil_append]
    exact ih _ _ (by omega)

/-- An SSID of at most 13 bytes is stored inside the bounds: the log of
`nvf_connect` is the acquisition, the two writes, the release and the
`schedule_work`, with no out-of-bounds store. -/
theorem nvf_connect_in_bounds (navi : dummy_wifi_context) (sme : cfg80211_connect_params)
    (h : sme.ssid_len ≤ 13) :
    (nvf_connect false navi sme).log =
      [Event.down_interruptible 0, Event.store Field.connecting_ssid,
        Event.store Field.connecting_ssid, Event.up,
        Event.schedule_work Work.ws_connect (schedule_work navi.ws_connect).1] := by
  have hlen : (if sme.ssid_len > 15 then 15 else sme.ssid_len) = sme.ssid_len := by
    split <;> omega
  have hc : (memcpy navi.connecting_ssid 0 (sme.ssid.take sme.ssid_len)).2 = [] := by
    apply memcpy_log_in_bounds
    simp only [List.length_take, sizeof_SSID_DUMMY_eq]
    omega
  have ht : ∀ a : char_array sizeof_SSID_DUMMY, (store_char a sme.ssid_len 0).2 = [] := by
    intro a
    unfold store_char
    rw [if_pos (by rw [sizeof_SSID_DUMMY_eq]; omega)]
  cases hw : navi.ws_connect <;>
    simp [nvf_connect, down_interruptible, schedule_work, hw, hlen, hc, ht]

/-- An SSID of 14 bytes or more overflows: the terminator of `nvf_connect` is
stored at the clamped length, outside the 14-byte array. -/
theorem nvf_connect_terminator_outside (navi : dummy_wifi_context)
    (sme : cfg80211_connect_params) (h : 14 ≤ sme.ssid_len) :
    Event.out_of_bounds (min sme.ssid_len 15) ∈ (nvf_connect false navi sme).log := by
  have hlen : (if sme.ssid_len > 15 then 15 else sme.ssid_len) = min sme.ssid_len 15 := by
    split <;> omega
  have ht : ∀ a : char_array sizeof_SSID_DUMMY,
      (store_char a (min sme.ssid_len 15) 0).2 = [Event.out_of_bounds (min sme.ssid_len 15)] := by
    intro a
    unfold store_char
    rw [if_neg (by rw [sizeof_SSID_DUMMY_eq]; omega)]
  cases hw : navi.ws_connect <;>
    simp [nvf_connect, down_interruptible, schedule_work, hw, hlen, ht]

/-- C6, the code at the 16-byte SSID "SomeOtherNetwork". The call is accepted;
`connecting_ssid`, 14 bytes as declared, ends up holding "SomeOtherNetwo": the
first 14 bytes of the SSID and no terminator, not the first 15 bytes followed
by a zero. -/
theorem nvf_connect_long_ssid :
    (ssid_of_string ("SomeOtherNetwork")).ssid_len = 16 ∧
    (nvf_connect false idle_context (ssid_of_string ("SomeOtherNetwork"))).ret = 0 ∧
    (nvf_connect false idle_context (ssid_of_string ("SomeOtherNetwork"))).navi.connecting_ssid.1 =
      (ssid_of_string ("SomeOtherNetwo")).ssid ∧
    (0 : Nat) ∉
      (nvf_connect false idle_context
        (ssid_of_string ("SomeOtherNetwork"))).navi.connecting_ssid.1 ∧
    (nvf_connect false idle_context
        (ssid_of_string ("SomeOtherNetwork"))).navi.connecting_ssid.1.take (15 + 1) ≠
      (ssid_of_string ("SomeOtherNetwork")).ssid.take 15 ++ [0] := by
  decide

/-- C7, the code at two SSIDs of 14 bytes and more. For the 14-byte SSID
"MyAwesomeWiFi2" the copy stays inside `connecting_ssid` and the terminator is
stored at index 14, outside the 14-byte array; for the 16-byte SSID
"SomeOtherNetwork" the copy stores its last byte at index 14 and the
terminator goes to index 15, both outside. -/
theorem nvf_connect_out_of_bounds :
    sizeof_SSID_DUMMY = 14 ∧
    (nvf_connect false idle_context (ssid_of_string ("MyAwesomeWiFi2"))).log =
      [Event.down_interruptible 0, Event.store Field.connecting_ssid,
        Event.store Field.connecting_ssid, Event.out_of_bounds 14, Event.up,
        Event.schedule_work Work.ws_connect true] ∧
    (nvf_connect false idle_context (ssid_of_string ("SomeOtherNetwork"))).log =
      [Event.down_interruptible 0, Event.store Field.connecting_ssid, Event.out_of_bounds 14,
        Event.store Field.connecting_ssid, Event.out_of_bounds 15, Event.up,
        Event.schedule_work Work.ws_connect true] := by
  decide

/-! ## The announcer -/

/-- C11 (the announcer has no mutable state). For every value of
`scan_request`, `connecting_ssid` and `disconnect_reason_code`,
`inform_dummy_bss` makes the same two calls: one `cfg80211_inform_bss_data`
with the only channel of the 2.4 GHz table, signal 1337, BSSID
aa:bb:cc:dd:ee:ff, capability `WLAN_CAPABILITY_ESS`, beacon interval 100 and
the 15-byte element (`WLAN_EID_SSID`, the length byte `SSID_DUMMY_SIZE` = 13,
then the 13 bytes of "MyAwesomeWiFi"), and one `cfg80211_put_bss` of the handle
that call returned. -/
theorem inform_dummy_bss_constant (bss : Nat) (navi : dummy_wifi_context)
    (request : Nat) (ssid : char_array sizeof_SSID_DUMMY) (reason_code : Nat) :
    inform_dummy_bss bss
        { navi with scan_request := request, connecting_ssid := ssid,
                    disconnect_reason_code := reason_code } =
      [Event.cfg80211_inform_bss_data navi.wiphy
          { chan := some { band := NL80211_BAND_2GHZ, hw_value := 6, center_freq := 2437 }
            scan_width := NL80211_BSS_CHAN_WIDTH_20
            signal := 1337 }
          CFG80211_BSS_FTYPE_UNKNOWN [0xaa, 0xbb, 0xcc, 0xdd, 0xee, 0xff] 0
          WLAN_CAPABILITY_ESS 100
          (WLAN_EID_SSID :: SSID_DUMMY_SIZE :: (ssid_of_string ("MyAwesomeWiFi")).ssid) 15,
        Event.cfg80211_put_bss navi.wiphy bss] ∧
    inform_dummy_bss bss
        { navi with scan_request := request, connecting_ssid := ssid,
                    disconnect_reason_code := reason_code } =
      inform_dummy_bss bss navi ∧
    nvf_supported_channels_2ghz =
      [{ band := NL80211_BAND_2GHZ, hw_value := 6, center_freq := 2437 }] ∧
    SSID_DUMMY_SIZE = 13 ∧
    (ssid_of_string ("MyAwesomeWiFi")).ssid.length = SSID_DUMMY_SIZE ∧
    (WLAN_EID_SSID :: SSID_DUMMY_SIZE :: (ssid_of_string ("MyAwesomeWiFi")).ssid).length = 15 ∧
    ((inform_dummy_bss bss navi).filter Event.is_bss_discovered).length = 1 ∧
    (inform_dummy_bss bss navi).count (Event.cfg80211_put_bss navi.wiphy bss) = 1 := by
  refine ⟨rfl, rfl, rfl, by decide, by decide, by decide, ?_, ?_⟩
  · rw [inform_dummy_bss_eq]
    simp [dummy_bss, Event.is_bss_discovered]
  · rw [inform_dummy_bss_eq]
    simp [dummy_bss]

/-! ## Module initialisation -/

/-- The status of `virtual_wifi_init` for every bring-up: it is `0` with a
context or `1` without one, never `-1`; a created context starts with the
semaphore count at one, no work item pending, `connecting_ssid[0]` zero,
`disconnect_reason_code` zero and `scan_request` `NULL`. -/
theorem virtual_wifi_init_status (env : bringup_env) :
    (((virtual_wifi_init env).1 = 0 ∧ (virtual_wifi_init env).2 ≠ none) ∨
      ((virtual_wifi_init env).1 = 1 ∧ (virtual_wifi_init env).2 = none)) ∧
    (virtual_wifi_init env).1 ≠ -1 ∧
    ((virtual_wifi_init env).2 = none ↔ dummy_wifi_create_context env = none) ∧
    (∀ g, (virtual_wifi_init env).2 = some g →
      g.sem = 1 ∧ g.connecting_ssid.1[0]? = some 0 ∧ g.disconnect_reason_code = 0 ∧
      g.scan_request = NULL ∧ g.ws_connect = false ∧ g.ws_disconnect = false ∧
      g.ws_scan = false) := by
  unfold virtual_wifi_init
  cases h : dummy_wifi_create_context env with
  | none => simp
  | some g0 =>
    simp only [reduceCtorEq, if_false, false_and, or_false, and_true, ne_eq,
      not_false_eq_true, true_and, zero_ne_one, or_self, false_iff, Option.some.injEq]
    intro g hg
    subst hg
    refine ⟨rfl, ?_, rfl, rfl, rfl, rfl, rfl⟩
    rw [store_char_getElem?, if_pos ⟨rfl, by decide⟩]

/-- C12, the code where context creation fails (here `kmalloc` returns
`NULL`): `virtual_wifi_init` leaves `g_ctx` at `NULL` and returns `1`, the value
of `g_ctx == NULL`, not `-1`. Where every step succeeds it returns `0` and the
context starts with `connecting_ssid[0]`, `disconnect_reason_code` and
`scan_request` cleared and the semaphore count at one. -/
theorem virtual_wifi_init_failure :
    dummy_wifi_create_context failing_env = none ∧
    (virtual_wifi_init failing_env).2 = none ∧
    (virtual_wifi_init failing_env).1 = 1 ∧
    (virtual_wifi_init failing_env).1 ≠ -1 ∧
    (virtual_wifi_init good_env).1 = 0 ∧
    (virtual_wifi_init good_env).2 =
      some { wiphy := 1, ndev := 2, sem := 1, ws_connect := false,
             connecting_ssid := ⟨0 :: List.replicate 13 255, by decide⟩,
             ws_disconnect := false, disconnect_reason_code := 0,
             ws_scan := false, scan_request := NULL } := by
  decide

/-! ## Locking discipline -/

theorem store_char_log {n : Nat} (a : char_array n) (i v : Nat) :
    ∀ e ∈ (store_char a i v).2, e = Event.out_of_bounds i := by
  unfold store_char
  split <;> simp

theorem memcpy_log {n : Nat} (src : List Nat) :
    ∀ (dst : char_array n) (off : Nat), ∀ e ∈ (memcpy dst off src).2,
      ∃ i, e = Event.out_of_bounds i := by
  induction src with
  | nil => intro dst off e he; simp [memcpy] at he
  | cons b bs ih =>
    intro dst off e he
    simp only [memcpy, List.mem_append] at he
    rcases he with he | he
    · exact ⟨off, store_char_log dst off b e he⟩
    · exact ih _ _ e he

theorem lock_trace_held_writes (l rest : List Event)
    (h : ∀ e ∈ l, ∃ i, e = Event.out_of_bounds i) :
    lock_trace true (l ++ rest) = lock_trace true rest := by
  induction l with
  | nil => rfl
  | cons e es ih =>
    obtain ⟨i, hi⟩ := h e (List.mem_cons_self e es)
    subst hi
    simp only [List.cons_append, lock_trace, if_true]
    exact ih (fun e he => h e (List.mem_cons_of_mem _ he))

theorem count_up_writes (l : List Event) (h : ∀ e ∈ l, ∃ i, e = Event.out_of_bounds i) :
    l.count Event.up = 0 := by
  rw [List.count_eq_zero]
  intro hu
  obtain ⟨i, hi⟩ := h _ hu
  cases hi

theorem nvf_connect_log (navi : dummy_wifi_context) (sme : cfg80211_connect_params) :
    ∃ c t : List Event,
      (∀ e ∈ c, ∃ i, e = Event.out_of_bounds i) ∧ (∀ e ∈ t, ∃ i, e = Event.out_of_bounds i) ∧
      (nvf_connect false navi sme).log =
        Event.down_interruptible 0 :: Event.store Field.connecting_ssid :: (c ++
          Event.store Field.connecting_ssid :: (t ++
            [Event.up, Event.schedule_work Work.ws_connect (schedule_work navi.ws_connect).1])) := by
  refine ⟨(memcpy navi.connecting_ssid 0
      (sme.ssid.take (if sme.ssid_len > 15 then 15 else sme.ssid_len))).2,
    (store_char (memcpy navi.connecting_ssid 0
      (sme.ssid.take (if sme.ssid_len > 15 then 15 else sme.ssid_len))).1
      (if sme.ssid_len > 15 then 15 else sme.ssid_len) 0).2, memcpy_log _ _ _, ?_, ?_⟩
  · intro e he
    exact ⟨_, store_char_log _ _ _ e he⟩
  · cases hw : navi.ws_connect <;>
      simp [nvf_connect, down_interruptible, schedule_work, hw]

/-- C13 (locking discipline). For every context, argument and outcome of the
acquisition, the log of each admission call and of each work routine keeps the
discipline: every read or write of `scan_request`, `connecting_ssid` and
`disconnect_reason_code` lies between a successful `down_interruptible` and
its `up`, and the log ends with the semaphore released; `up` is called once
after a successful acquisition and not at all after an interrupted one; a
semaphore that is free on entry (count above zero) has the same count on
return. -/
theorem locking_discipline (intr : Bool) (navi : dummy_wifi_context) (request bss : Nat)
    (sme : cfg80211_connect_params) (reason_code : Nat) :
    (well_locked (nvf_scan intr navi request).log ∧
      (nvf_scan intr navi request).log.count Event.up = (if intr then 0 else 1) ∧
      (0 < navi.sem → (nvf_scan intr navi request).navi.sem = navi.sem)) ∧
    (well_locked (nvf_connect intr navi sme).log ∧
      (nvf_connect intr navi sme).log.count Event.up = (if intr then 0 else 1) ∧
      (0 < navi.sem → (nvf_connect intr navi sme).navi.sem = navi.sem)) ∧
    (well_locked (nvf_disconnect intr navi reason_code).log ∧
      (nvf_disconnect intr navi reason_code).log.count Event.up = (if intr then 0 else 1) ∧
      (0 < navi.sem → (nvf_disconnect intr navi reason_code).navi.sem = navi.sem)) ∧
    (well_locked (dummy_wifi_scan_routine intr bss navi).log ∧
      (dummy_wifi_scan_routine intr bss navi).log.count Event.up = (if intr then 0 else 1) ∧
      (0 < navi.sem → (dummy_wifi_scan_routine intr bss navi).navi.sem = navi.sem)) ∧
    (well_locked (dummy_wifi_connect_routine intr bss navi).log ∧
      (dummy_wifi_connect_routine intr bss navi).log.count Event.up = (if intr then 0 else 1) ∧
      (0 < navi.sem → (dummy_wifi_connect_routine intr bss navi).navi.sem = navi.sem)) ∧
    (well_locked (dummy_wifi_disconnect_routine intr navi).log ∧
      (dummy_wifi_disconnect_routine intr navi).log.count Event.up = (if intr then 0 else 1) ∧
      (0 < navi.sem → (dummy_wifi_disconnect_routine intr navi).navi.sem = navi.sem)) := by
  have hsem : 0 < navi.sem → up (navi.sem - 1) = navi.sem := by
    intro h; unfold up; omega
  refine ⟨?_, ?_, ?_, ?_, ?_, ?_⟩
  · cases intr <;> by_cases h : navi.scan_request = NULL <;> cases hw : navi.ws_scan <;>
      simp [well_locked, lock_trace, nvf_scan, down_interruptible, schedule_work, h, hw,
        EINTR] <;> exact hsem
  · cases intr
    · obtain ⟨c, t, hc, ht, hlog⟩ := nvf_connect_log navi sme
      refine ⟨?_, ?_, ?_⟩
      · rw [well_locked, hlog]
        simp only [lock_trace, decide_True, if_true, Bool.false_eq_true, if_false]
        rw [lock_trace_held_writes c _ hc]
        simp only [lock_trace, if_true]
        rw [lock_trace_held_writes t _ ht]
        simp [lock_trace]
      · rw [hlog]
        simp [List.count_append, count_up_writes c hc, count_up_writes t ht, List.count_cons]
      · intro h
        cases hw : navi.ws_connect <;>
          simp [nvf_connect, down_interruptible, schedule_work, hw, hsem h]
    · simp [well_locked, lock_trace, nvf_connect, down_interruptible, EINTR]
  · cases intr <;> cases hw : navi.ws_disconnect <;>
      simp [well_locked, lock_trace, nvf_disconnect, down_interruptible, schedule_work, hw,
        EINTR] <;> exact hsem
  · cases intr
    · simp [well_locked, lock_trace, dummy_wifi_scan_routine, down_interruptible,
        inform_dummy_bss_eq, dummy_bss]
      exact hsem
    · simp [well_locked, lock_trace, dummy_wifi_scan_routine, down_interruptible, EINTR,
        inform_dummy_bss_eq, dummy_bss]
  · cases intr
    · by_cases hm : memcmp navi.connecting_ssid.1 SSID_DUMMY 14 = 0 <;>
        simp [well_locked, lock_trace, dummy_wifi_connect_routine, down_interruptible, hm,
          inform_dummy_bss_eq, dummy_bss, store_char, sizeof_SSID_DUMMY_eq] <;> exact hsem
    · simp [well_locked, lock_trace, dummy_wifi_connect_routine, down_interruptible, EINTR]
  · cases intr
    · simp [well_locked, lock_trace, dummy_wifi_disconnect_routine, down_interruptible]
      exact hsem
    · simp [well_locked, lock_trace, dummy_wifi_disconnect_routine, down_interruptible, EINTR]

/-! ## Busy after the state is written -/

/-- C14 (Busy by enqueue failure is not atomic), call by call, each in any
context where the semaphore is acquired and its own work item is already
pending, so that `schedule_work` fails, whatever the other work items and
fields are. In `navi_c` (connect work pending) `nvf_connect` returns `-EBUSY`
and leaves the context exactly as the accepted call would, `connecting_ssid`
holding the bytes of the new SSID below the clamped length and the terminator
at that length; the connect routine then makes the calls it would make for the
new SSID. In `navi_d` (disconnect work pending) `nvf_disconnect` returns
`-EBUSY` with `disconnect_reason_code` set to the new reason, which the
disconnect routine then reports. In `navi_s` (scan work pending, no request
stored) `nvf_scan` returns `-EBUSY` with `scan_request` set to the new
request. -/
theorem busy_after_write (navi_c navi_d navi_s : dummy_wifi_context)
    (sme : cfg80211_connect_params) (r request bss : Nat)
    (hc : navi_c.ws_connect = true)
    (hd : navi_d.ws_disconnect = true) (hr : r < 2 ^ 16)
    (hs : navi_s.ws_scan = true) (hn : navi_s.scan_request = NULL) :
    ((nvf_connect false navi_c sme).ret = -EBUSY ∧
      (nvf_connect false navi_c sme).navi =
        (nvf_connect false { navi_c with ws_connect := false } sme).navi ∧
      (nvf_connect false { navi_c with ws_connect := false } sme).ret = 0 ∧
      (∀ j, j < sizeof_SSID_DUMMY →
        (nvf_connect false navi_c sme).navi.connecting_ssid.1[j]? =
          if j < min sme.ssid_len 15 then sme.ssid[j]?
          else if j = min sme.ssid_len 15 then some 0
          else navi_c.connecting_ssid.1[j]?) ∧
      callbacks (dummy_wifi_connect_routine false bss (nvf_connect false navi_c sme).navi).log =
        callbacks (dummy_wifi_connect_routine false bss
          (nvf_connect false { navi_c with ws_connect := false } sme).navi).log) ∧
    ((nvf_disconnect false navi_d r).ret = -EBUSY ∧
      (nvf_disconnect false navi_d r).navi.disconnect_reason_code = r ∧
      callbacks (dummy_wifi_disconnect_routine false (nvf_disconnect false navi_d r).navi).log =
        [Event.cfg80211_disconnected navi_d.ndev r true]) ∧
    ((nvf_scan false navi_s request).ret = -EBUSY ∧
      (nvf_scan false navi_s request).navi.scan_request = request) := by
  have hr2 : r % 65536 = r := Nat.mod_eq_of_lt (by simpa using hr)
  have hq : (nvf_connect false navi_c sme).navi =
      (nvf_connect false { navi_c with ws_connect := false } sme).navi := by
    simp [nvf_connect, down_interruptible, schedule_work, hc]
  refine ⟨⟨?_, hq, ?_, fun j hj => nvf_connect_getElem? navi_c sme j hj, ?_⟩, ?_, ?_⟩
  · simp [nvf_connect, down_interruptible, schedule_work, hc]
  · simp [nvf_connect, down_interruptible, schedule_work]
  · rw [hq]
  · simp [nvf_disconnect, dummy_wifi_disconnect_routine, down_interruptible, schedule_work,
      callbacks, Event.is_bss_discovered, Event.is_completion, hr2, hd]
  · simp [nvf_scan, down_interruptible, schedule_work, hs, hn]

theorem busy_after_write_witness :
    (connect_queued_context.ws_connect = true ∧
      connect_queued_context.ws_disconnect = false ∧
      connect_queued_context.ws_scan = false) ∧
    (disconnect_queued_context.ws_disconnect = true ∧
      disconnect_queued_context.ws_connect = false) ∧
    (scan_queued_context.ws_scan = true ∧ scan_queued_context.scan_request = NULL) ∧
    callbacks (dummy_wifi_connect_routine false 77 connect_queued_context).log =
      [Event.cfg80211_connect_timeout 2 nl80211_timeout_reason.NL80211_TIMEOUT_SCAN] ∧
    (nvf_connect false connect_queued_context (ssid_of_string ("MyAwesomeWiFi"))).ret =
      -EBUSY ∧
    callbacks (dummy_wifi_connect_routine false 77
        (nvf_connect false connect_queued_context
          (ssid_of_string ("MyAwesomeWiFi"))).navi).log =
      [dummy_bss 1,
        Event.cfg80211_connect_bss 2 WLAN_STATUS_SUCCESS
          nl80211_timeout_reason.NL80211_TIMEOUT_UNSPECIFIED] ∧
    (nvf_disconnect false disconnect_queued_context 7).ret = -EBUSY ∧
    callbacks (dummy_wifi_disconnect_routine false
        (nvf_disconnect false disconnect_queued_context 7).navi).log =
      [Event.cfg80211_disconnected 2 7 true] ∧
    (nvf_scan false scan_queued_context 4096).ret = -EBUSY ∧
    (nvf_scan false scan_queued_context 4096).navi.scan_request = 4096 :=
  have h := busy_after_write connect_queued_context disconnect_queued_context
    scan_queued_context (ssid_of_string ("MyAwesomeWiFi")) 7 4096 77
    (by decide) (by decide) (by decide) (by decide) (by decide)
  ⟨by decide, by decide, by decide, by decide, h.1.1, by decide, h.2.1.1, h.2.1.2.2,
    h.2.2.1, h.2.2.2⟩

/-! ## Stale bytes of the SSID buffer -/

/-- C15 (stale bytes do not decide a connect). The connect routine clears only
byte 0 of `connecting_ssid` and compares all 14 bytes; still, for every SSID of
at most 13 bytes and for two contexts that differ only, and arbitrarily, in the
old bytes of `connecting_ssid`, `nvf_connect` followed by the connect routine
(semaphore acquired) makes the same calls into the upper stack, and these are
the announcement and `cfg80211_connect_bss` with success exactly when the SSID
is the 13 bytes "MyAwesomeWiFi", the timeout otherwise. -/
theorem connect_ignores_stale_bytes (navi : dummy_wifi_context)
    (stale : char_array sizeof_SSID_DUMMY) (sme : cfg80211_connect_params) (bss : Nat)
    (hlen : sme.ssid_len ≤ 13) :
    callbacks (dummy_wifi_connect_routine false bss
        (nvf_connect false { navi with connecting_ssid := stale } sme).navi).log =
      callbacks (dummy_wifi_connect_routine false bss (nvf_connect false navi sme).navi).log ∧
    callbacks (dummy_wifi_connect_routine false bss (nvf_connect false navi sme).navi).log =
      (if sme.ssid = (ssid_of_string ("MyAwesomeWiFi")).ssid then
        [dummy_bss navi.wiphy,
          Event.cfg80211_connect_bss navi.ndev WLAN_STATUS_SUCCESS
            nl80211_timeout_reason.NL80211_TIMEOUT_UNSPECIFIED]
      else
        [Event.cfg80211_connect_timeout navi.ndev
          nl80211_timeout_reason.NL80211_TIMEOUT_SCAN]) ∧
    (Event.cfg80211_connect_bss navi.ndev WLAN_STATUS_SUCCESS
        nl80211_timeout_reason.NL80211_TIMEOUT_UNSPECIFIED ∈
      (dummy_wifi_connect_routine false bss (nvf_connect false navi sme).navi).log ↔
      sme.ssid = (ssid_of_string ("MyAwesomeWiFi")).ssid) ∧
    (dummy_wifi_connect_routine false bss navi).navi.connecting_ssid.1 =
      navi.connecting_ssid.1.set 0 0 ∧
    sizeof_SSID_DUMMY = 14 := by
  have hk : (ssid_of_string ("MyAwesomeWiFi")).ssid = SSID_DUMMY.take SSID_DUMMY_SIZE := by
    decide
  have key : ∀ n : dummy_wifi_context,
      callbacks (dummy_wifi_connect_routine false bss (nvf_connect false n sme).navi).log =
        (if sme.ssid = (ssid_of_string ("MyAwesomeWiFi")).ssid then
          [dummy_bss n.wiphy,
            Event.cfg80211_connect_bss n.ndev WLAN_STATUS_SUCCESS
              nl80211_timeout_reason.NL80211_TIMEOUT_UNSPECIFIED]
        else
          [Event.cfg80211_connect_timeout n.ndev
            nl80211_timeout_reason.NL80211_TIMEOUT_SCAN]) := by
    intro n
    have hf := nvf_connect_frame false n sme
    by_cases h : sme.ssid = (ssid_of_string ("MyAwesomeWiFi")).ssid
    · rw [if_pos h, connect_routine_match _ bss (nvf_connect_stores_known n sme (h.trans hk)),
        hf.1, hf.2]
    · rw [if_neg h, connect_routine_mismatch _ bss
        (nvf_connect_stores_other_short n sme hlen (fun h2 => h (h2.trans hk.symm))), hf.1]
  refine ⟨?_, key navi, ?_, ?_, sizeof_SSID_DUMMY_eq⟩
  · rw [key, key]
  · have hmem : ∀ e : Event, e.is_completion = true →
        (e ∈ (dummy_wifi_connect_routine false bss (nvf_connect false navi sme).navi).log ↔
          e ∈ callbacks
            (dummy_wifi_connect_routine false bss (nvf_connect false navi sme).navi).log) := by
      intro e he
      simp [callbacks, he]
    rw [hmem (Event.cfg80211_connect_bss navi.ndev WLAN_STATUS_SUCCESS
      nl80211_timeout_reason.NL80211_TIMEOUT_UNSPECIFIED) rfl, key navi]
    by_cases h : sme.ssid = (ssid_of_string ("MyAwesomeWiFi")).ssid
    · simp [h]
    · simp [h]
  · simp [dummy_wifi_connect_routine, down_interruptible, store_char, sizeof_SSID_DUMMY_eq]

theorem connect_ignores_stale_bytes_witness :
    (ssid_of_string ("MyAwesomeWiFi")).ssid_len ≤ 13 ∧
    callbacks (dummy_wifi_connect_routine false 77
        (nvf_connect false
          { idle_context with connecting_ssid := ⟨List.replicate 14 255, by decide⟩ }
          (ssid_of_string ("MyAwesomeWiFi"))).navi).log =
      callbacks (dummy_wifi_connect_routine false 77
        (nvf_connect false idle_context (ssid_of_string ("MyAwesomeWiFi"))).navi).log :=
  ⟨by decide,
    (connect_ignores_stale_bytes idle_context ⟨List.replicate 14 255, by decide⟩
      (ssid_of_string ("MyAwesomeWiFi")) 77 (by decide)).1⟩

/-! ## Frame -/

/-- Frame, where every store stays inside the bounds. For every context,
argument and outcome of the acquisition: `nvf_scan` and the scan routine leave
`connecting_ssid` and `disconnect_reason_code` as they were, `nvf_connect` with
an SSID of at most 13 bytes (no store leaves the array) and the connect routine
leave `scan_request` and `disconnect_reason_code` as they were,
`nvf_disconnect` and the disconnect routine leave `scan_request` and
`connecting_ssid` as they were. Besides its own field a call changes nothing
but the count of the semaphore it takes and releases and, for an admission
call, the pending bit of the work item it schedules; `wiphy` and `ndev` are
never changed. Nothing is said here about `nvf_connect` with a longer SSID,
whose last stores fall past the end of `connecting_ssid`. -/
theorem frame_in_bounds (intr : Bool) (navi : dummy_wifi_context) (request bss : Nat)
    (sme : cfg80211_connect_params) (reason_code : Nat) :
    ((nvf_scan intr navi request).navi.connecting_ssid = navi.connecting_ssid ∧
      (nvf_scan intr navi request).navi.disconnect_reason_code = navi.disconnect_reason_code ∧
      (nvf_scan intr navi request).navi =
        { navi with scan_request := (nvf_scan intr navi request).navi.scan_request,
                    sem := (nvf_scan intr navi request).navi.sem,
                    ws_scan := (nvf_scan intr navi request).navi.ws_scan }) ∧
    ((dummy_wifi_scan_routine intr bss navi).navi.connecting_ssid = navi.connecting_ssid ∧
      (dummy_wifi_scan_routine intr bss navi).navi.disconnect_reason_code =
        navi.disconnect_reason_code ∧
      (dummy_wifi_scan_routine intr bss navi).navi =
        { navi with scan_request := (dummy_wifi_scan_routine intr bss navi).navi.scan_request,
                    sem := (dummy_wifi_scan_routine intr bss navi).navi.sem }) ∧
    (sme.ssid_len ≤ 13 →
      (∀ i, Event.out_of_bounds i ∉ (nvf_connect intr navi sme).log) ∧
      (nvf_connect intr navi sme).navi.scan_request = navi.scan_request ∧
      (nvf_connect intr navi sme).navi.disconnect_reason_code = navi.disconnect_reason_code ∧
      (nvf_connect intr navi sme).navi =
        { navi with connecting_ssid := (nvf_connect intr navi sme).navi.connecting_ssid,
                    sem := (nvf_connect intr navi sme).navi.sem,
                    ws_connect := (nvf_connect intr navi sme).navi.ws_connect }) ∧
    ((dummy_wifi_connect_routine intr bss navi).navi.scan_request = navi.scan_request ∧
      (dummy_wifi_connect_routine intr bss navi).navi.disconnect_reason_code =
        navi.disconnect_reason_code ∧
      (dummy_wifi_connect_routine intr bss navi).navi =
        { navi with
            connecting_ssid := (dummy_wifi_connect_routine intr bss navi).navi.connecting_ssid,
            sem := (dummy_wifi_connect_routine intr bss navi).navi.sem }) ∧
    ((nvf_disconnect intr navi reason_code).navi.scan_request = navi.scan_request ∧
      (nvf_disconnect intr navi reason_code).navi.connecting_ssid = navi.connecting_ssid ∧
      (nvf_disconnect intr navi reason_code).navi =
        { navi with
            disconnect_reason_code :=
              (nvf_disconnect intr navi reason_code).navi.disconnect_reason_code,
            sem := (nvf_disconnect intr navi reason_code).navi.sem,
            ws_disconnect := (nvf_disconnect intr navi reason_code).navi.ws_disconnect }) ∧
    ((dummy_wifi_disconnect_routine intr navi).navi.scan_request = navi.scan_request ∧
      (dummy_wifi_disconnect_routine intr navi).navi.connecting_ssid = navi.connecting_ssid ∧
      (dummy_wifi_disconnect_routine intr navi).navi =
        { navi with
            disconnect_reason_code :=
              (dummy_wifi_disconnect_routine intr navi).navi.disconnect_reason_code,
            sem := (dummy_wifi_disconnect_routine intr navi).navi.sem }) := by
  have hlog : sme.ssid_len ≤ 13 → ∀ i, Event.out_of_bounds i ∉ (nvf_connect intr navi sme).log := by
    intro hlen i
    cases intr
    · rw [nvf_connect_in_bounds navi sme hlen]
      simp
    · simp [nvf_connect, down_interruptible, EINTR]
  obtain ⟨wiphy, ndev, sem, wc, cs, wd, rc, ws, sr⟩ := navi
  refine ⟨?_, ?_, fun hlen => ⟨hlog hlen, ?_⟩, ?_, ?_, ?_⟩
  · cases intr <;> by_cases h : sr = NULL <;> cases ws <;>
      simp [nvf_scan, down_interruptible, schedule_work, h, EINTR]
  · cases intr <;> simp [dummy_wifi_scan_routine, down_interruptible, EINTR]
  · cases intr <;> cases wc <;>
      simp [nvf_connect, down_interruptible, schedule_work, EINTR]
  · cases intr <;> simp [dummy_wifi_connect_routine, down_interruptible, EINTR]
  · cases intr <;> cases wd <;>
      simp [nvf_disconnect, down_interruptible, schedule_work, EINTR]
  · cases intr <;> simp [dummy_wifi_disconnect_routine, down_interruptible, EINTR]

/-! ## The scan state machine -/

theorem scan_step_inv (s : scan_system) (a : scan_action) (h : scan_inv s) :
    scan_inv (scan_step s a).1 ∧
    ∀ aborted, Event.cfg80211_scan_done NULL aborted ∉ (scan_step s a).2 := by
  obtain ⟨⟨wiphy, ndev, sem, wc, cs, wd, rc, ws, sr⟩, q, r⟩ := s
  obtain ⟨h1, h2, h3⟩ := h
  simp only at h1 h2 h3
  cases a with
  | start_scan intr request =>
    obtain ⟨p, hp⟩ := request
    cases intr
    · by_cases hsr : sr = NULL
      · have hq : q = 0 ∧ r = 0 := by
          by_contra hne
          exact h3 (by omega) hsr
        have hws : ws = false := by
          cases ws
          · rfl
          · have := h2.mp rfl
            omega
        subst hws
        obtain ⟨hq0, hr0⟩ := hq
        subst hq0 hr0
        simp [scan_step, scan_inv, nvf_scan, down_interruptible, schedule_work, hsr, hp,
          Event.is_enqueue]
      · simp only [scan_step, scan_inv, nvf_scan, down_interruptible, hsr]
        simp [Event.is_enqueue, h1, h2, hsr]
    · simp only [scan_step, scan_inv, nvf_scan, down_interruptible]
      simp [Event.is_enqueue, EINTR, h1, h2]
      intro hpos
      exact h3 (by omega)
  | task_begin =>
    by_cases hq : 0 < q
    · have hq1 : q = 1 ∧ r = 0 := by omega
      obtain ⟨hq1, hr0⟩ := hq1
      subst hq1 hr0
      have hsr := h3 (by omega)
      simp [scan_step, scan_inv, hsr]
    · simp only [scan_step, hq, if_false]
      exact ⟨⟨h1, h2, h3⟩, by simp⟩
  | task_end intr bss =>
    by_cases hr : 0 < r
    · have hq1 : q = 0 ∧ r = 1 := by omega
      obtain ⟨hq0, hr1⟩ := hq1
      subst hq0 hr1
      have hsr := h3 (by omega)
      have hws : ws = false := by
        cases ws
        · rfl
        · have := h2.mp rfl
          omega
      subst hws
      cases intr
      · simp [scan_step, scan_inv, dummy_wifi_scan_routine, down_interruptible,
          inform_dummy_bss_eq, dummy_bss, hsr]
        exact fun hnull => hsr hnull.symm
      · simp [scan_step, scan_inv, dummy_wifi_scan_routine, down_interruptible,
          inform_dummy_bss_eq, dummy_bss, EINTR]
    · simp only [scan_step, hr, if_false]
      exact ⟨⟨h1, h2, h3⟩, by simp⟩

theorem scan_run_inv (acts : List scan_action) :
    ∀ s : scan_system, scan_inv s →
      scan_inv (scan_run s acts).1 ∧
      ∀ aborted, Event.cfg80211_scan_done NULL aborted ∉ (scan_run s acts).2 := by
  induction acts with
  | nil => intro s h; exact ⟨h, by simp [scan_run]⟩
  | cons a as ih =>
    intro s h
    obtain ⟨h1, h2⟩ := scan_step_inv s a h
    obtain ⟨h3, h4⟩ := ih (scan_step s a).1 h1
    refine ⟨h3, ?_⟩
    intro aborted hmem
    simp only [scan_run, List.mem_append] at hmem
    rcases hmem with hm | hm
    · exact h2 aborted hm
    · exact h4 aborted hm

/-- C16 (reachable states of the scan side). Start from a context with
`scan_request` at `NULL` and the scan work not pending, nothing queued or
running, and take any sequence of `nvf_scan` calls (with request handles),
worker pick-ups and runs of the scan routine, each acquisition succeeding or
interrupted and `schedule_work` succeeding exactly when the work is not
pending. In the state reached, hence in every state on the way: at most one
scan work is queued or running; if one is, `scan_request` is set; and nowhere
in the log is `cfg80211_scan_done` called with a `NULL` request. -/
theorem scan_reachable_invariant (navi : dummy_wifi_context) (acts : List scan_action)
    (_h0 : navi.scan_request = NULL) (hw : navi.ws_scan = false) :
    (scan_run { navi := navi, queued := 0, running := 0 } acts).1.queued +
      (scan_run { navi := navi, queued := 0, running := 0 } acts).1.running ≤ 1 ∧
    (0 < (scan_run { navi := navi, queued := 0, running := 0 } acts).1.queued +
        (scan_run { navi := navi, queued := 0, running := 0 } acts).1.running →
      (scan_run { navi := navi, queued := 0, running := 0 } acts).1.navi.scan_request ≠
        NULL) ∧
    ((scan_run { navi := navi, queued := 0, running := 0 } acts).1.navi.ws_scan = true ↔
      (scan_run { navi := navi, queued := 0, running := 0 } acts).1.queued = 1) ∧
    (∀ aborted, Event.cfg80211_scan_done NULL aborted ∉
      (scan_run { navi := navi, queued := 0, running := 0 } acts).2) := by
  have hinit : scan_inv { navi := navi, queued := 0, running := 0 } := by
    simp [scan_inv, hw]
  obtain ⟨⟨h1, h2, h3⟩, h4⟩ := scan_run_inv acts _ hinit
  exact ⟨h1, h3, h2, h4⟩

theorem scan_reachable_invariant_witness :
    idle_context.scan_request = NULL ∧ idle_context.ws_scan = false ∧
    (scan_run { navi := idle_context, queued := 0, running := 0 }
        sample_scan_actions).1.queued +
      (scan_run { navi := idle_context, queued := 0, running := 0 }
        sample_scan_actions).1.running ≤ 1 ∧
    callbacks (scan_run { navi := idle_context, queued := 0, running := 0 }
        sample_scan_actions).2 =
      [dummy_bss 1, Event.cfg80211_scan_done 4096 false, dummy_bss 1] ∧
    (scan_run { navi := idle_context, queued := 0, running := 0 }
        sample_scan_actions).1.navi.scan_request = 8192 :=
  ⟨rfl, rfl, (scan_reachable_invariant idle_context sample_scan_actions rfl rfl).1,
    by decide, by decide⟩

end DummyWiFi
